import Mathlib

/-!
Shallow embedding of the data-cleaning pipeline of the France-Cycling-Accidents
dashboard (`src/utils/prep.py` and the filter logic of `src/app.py`), together
with proofs settling the specification claims about it.

Conventions of the embedding:
* A pandas DataFrame is a `List Row`; a missing value (NaN/NaT) is `none`.
* pandas semantics that matter here are modelled faithfully:
  `Series.map dict` sends a key with no dict entry (and NaN) to NaN;
  comparisons and `isin` on NaN yield `False`; `groupby` drops rows whose
  key is NaN; `pd.cut` uses right-closed intervals, the first one closed
  on the left only under `include_lowest=True`.
* `str.zfill`, the `%H:%M` time parse and the ISO `YYYY-MM-DD` date parse are
  modelled directly on the character list of the string.
* Technical columns that no claim mentions (`Num_Acc`, `vehiculeid`, `lartpc`,
  `larrout`, `nbv`, `_infos_commune.code_epci`, `lat`, `long`, the combined
  `datetime` column) are not part of `Row`; dropping a column at the end of
  the pipeline is modelled by clearing the field.
-/

namespace Cyclo

/-! ### String helpers: zfill, digit parsing, splitting -/

/-- Python `str.zfill(w)` on the character list: left-pad with `'0'` up to
width `w`, keeping a leading sign character in front of the padding. -/
def zfillChars (w : Nat) (cs : List Char) : List Char :=
  if w ≤ cs.length then cs
  else
    match cs with
    | c :: rest =>
        if c = '+' ∨ c = '-' then
          c :: (List.replicate (w - cs.length) '0' ++ rest)
        else
          List.replicate (w - cs.length) '0' ++ cs
    | [] => List.replicate w '0'

/-- `df['dep'].astype(str).str.zfill(2)` applied to one department value. -/
def normalize_department (s : String) : String :=
  ⟨zfillChars 2 s.data⟩

/-- Parse a non-empty all-digit character list as a natural number. -/
def digitsToNat : List Char → Option Nat
  | [] => none
  | cs =>
      if cs.all Char.isDigit then
        some (cs.foldl (fun n c => 10 * n + (c.toNat - '0'.toNat)) 0)
      else none

/-- Split a character list on a separator character. -/
def splitOnSep (sep : Char) : List Char → List (List Char)
  | [] => [[]]
  | c :: cs =>
      let rest := splitOnSep sep cs
      if c = sep then [] :: rest
      else
        match rest with
        | [] => [[c]]
        | g :: gs => (c :: g) :: gs

/-! ### Calendar: date and time parsing, day-of-week, month names -/

def isLeapYear (y : Nat) : Bool :=
  (y % 4 == 0 && y % 100 != 0) || (y % 400 == 0)

def daysInMonth (y m : Nat) : Nat :=
  if m = 2 then (if isLeapYear y then 29 else 28)
  else if m = 4 ∨ m = 6 ∨ m = 9 ∨ m = 11 then 30
  else 31

/-- Model of `pd.to_datetime(date, errors='coerce')` on the dataset's
ISO `YYYY-MM-DD` date strings: `none` is NaT. -/
def parseDate (s : String) : Option (Nat × Nat × Nat) :=
  match (splitOnSep '-' s.data).map digitsToNat with
  | [some y, some m, some d] =>
      if 1 ≤ m ∧ m ≤ 12 ∧ 1 ≤ d ∧ d ≤ daysInMonth y m then some (y, m, d)
      else none
  | _ => none

/-- Model of `pd.to_datetime(hrmn, format='%H:%M', errors='coerce').dt.hour`. -/
def parseHour (s : String) : Option Nat :=
  match (splitOnSep ':' s.data).map digitsToNat with
  | [some h, some m] => if h ≤ 23 ∧ m ≤ 59 then some h else none
  | _ => none

def monthName (m : Nat) : Option String :=
  ["January", "February", "March", "April", "May", "June", "July",
   "August", "September", "October", "November", "December"].get? (m - 1)

/-- English day name of a Gregorian date (Sakamoto's method). -/
def dayName (y m d : Nat) : String :=
  let t := [0, 3, 2, 5, 0, 3, 5, 1, 4, 6, 2, 4]
  let y' := if m < 3 then y - 1 else y
  let w := (y' + y' / 4 - y' / 100 + y' / 400 + t.getD (m - 1) 0 + d) % 7
  ["Sunday", "Monday", "Tuesday", "Wednesday", "Thursday", "Friday",
   "Saturday"].getD w ""

/-! ### Decoding tables (`prep.py` dictionaries)

Each dictionary is a partial map from an integer code to its label;
`none` means the code has no entry. -/

def GRAVITY_DICT : Int → Option String
  | 1 => some "Unharmed"
  | 2 => some "Killed"
  | 3 => some "Hospitalized"
  | 4 => some "Minor injury"
  | _ => none

def LIGHTING_DICT : Int → Option String
  | 1 => some "Daylight"
  | 2 => some "Twilight or dawn"
  | 3 => some "Night without street lighting"
  | 4 => some "Night with street lighting off"
  | 5 => some "Night with street lighting on"
  | _ => none

def WEATHER_DICT : Int → Option String
  | 1 => some "Normal"
  | 2 => some "Light rain"
  | 3 => some "Heavy rain"
  | 4 => some "Snow - hail"
  | 5 => some "Fog - smoke"
  | 6 => some "Strong wind - storm"
  | 7 => some "Dazzling weather"
  | 8 => some "Overcast"
  | 9 => some "Other"
  | _ => none

def AGGLOMERATION_DICT : Int → Option String
  | 1 => some "Outside built-up area"
  | 2 => some "In built-up area"
  | _ => none

def INTERSECTION_DICT : Int → Option String
  | 1 => some "Outside intersection"
  | 2 => some "X intersection"
  | 3 => some "T intersection"
  | 4 => some "Y intersection"
  | 5 => some "Intersection with more than 4 branches"
  | 6 => some "Roundabout"
  | 7 => some "Square"
  | 8 => some "Level crossing"
  | 9 => some "Other intersection"
  | _ => none

def ROAD_CATEGORY_DICT : Int → Option String
  | 1 => some "Highway"
  | 2 => some "National road"
  | 3 => some "Departmental road"
  | 4 => some "Municipal road"
  | 5 => some "Off public network"
  | 6 => some "Parking lot"
  | 9 => some "Other"
  | _ => none

def SURFACE_DICT : Int → Option String
  | 1 => some "Normal"
  | 2 => some "Wet"
  | 3 => some "Puddles"
  | 4 => some "Flooded"
  | 5 => some "Snowy"
  | 6 => some "Mud"
  | 7 => some "Icy"
  | 8 => some "Oil - grease"
  | 9 => some "Other"
  | _ => none

def INFRASTRUCTURE_DICT : Int → Option String
  | 0 => some "Without infrastructure"
  | 1 => some "Bike lane (physically separated)"
  | 2 => some "Bike lane (painted)"
  | 3 => some "Reserved lane"
  | 4 => some "Other infrastructure"
  | _ => none

def SITUATION_DICT : Int → Option String
  | -1 => some "Not specified"
  | 0 => some "None"
  | 1 => some "On roadway"
  | 2 => some "On emergency lane"
  | 3 => some "On shoulder"
  | 4 => some "On sidewalk"
  | 5 => some "On bike path"
  | 6 => some "On other special lane"
  | 8 => some "Other"
  | _ => none

def GENDER_DICT : Int → Option String
  | 1 => some "Male"
  | 2 => some "Female"
  | _ => none

def TRIP_PURPOSE_DICT : Int → Option String
  | 0 => some "Not specified"
  | 1 => some "Home - work"
  | 2 => some "Home - school"
  | 3 => some "Shopping"
  | 4 => some "Professional use"
  | 5 => some "Leisure"
  | 9 => some "Other"
  | _ => none

def COLLISION_TYPE_DICT : Int → Option String
  | 1 => some "Two vehicles - front"
  | 2 => some "Two vehicles - from rear"
  | 3 => some "Two vehicles - from side"
  | 4 => some "Three or more vehicles - chain"
  | 5 => some "Three or more vehicles - multiple"
  | 6 => some "Other collision"
  | 7 => some "Without collision"
  | _ => none

/-- `series.map(dict)`: NaN stays NaN, a key missing from the dict maps
to NaN, a key with an entry maps to its label. -/
def mapDict (d : Int → Option String) : Option Int → Option String
  | none => none
  | some c => d c

/-! ### The record type

One DataFrame row. Raw columns come first; the columns created by
`clean_data` follow, initialised to the "absent" value. -/

structure Row where
  an : Option Int := none
  grav : Option Int := none
  lum : Option Int := none
  atm : Option Int := none
  agg : Option Int := none
  int : Option Int := none
  catr : Option Int := none
  surf : Option Int := none
  infra : Option Int := none
  situ : Option Int := none
  sexe : Option Int := none
  trajet : Option Int := none
  col : Option Int := none
  date : Option String := none
  hrmn : Option String := none
  age : Option Int := none
  dep : String := ""
  -- columns created by clean_data
  gravity : Option String := none
  lighting : Option String := none
  weather : Option String := none
  agglomeration : Option String := none
  intersection_type : Option String := none
  road_category : Option String := none
  surface_condition : Option String := none
  infrastructure : Option String := none
  situation : Option String := none
  gender : Option String := none
  trip_purpose : Option String := none
  collision_type : Option String := none
  year : Option Int := none
  month_num : Option Nat := none
  month_name : Option String := none
  day_of_week : Option String := none
  hour : Option Nat := none
  time_period : Option String := none
  age_group : Option String := none
  is_severe : Bool := false
  is_fatal : Bool := false
  dangerous_conditions : Bool := false
  has_bike_infrastructure : Bool := false
  is_weekend : Bool := false
  season : Option String := none
  deriving DecidableEq, Repr

abbrev Table := List Row

/-! ### The cleaning pipeline (`clean_data`, prep.py lines 132-288)

Each definition below embeds one block of statements of `clean_data`,
in source order. -/

/-- `df = df_raw.copy()`: a fresh object with the same contents. -/
def copyTable (df : Table) : Table := df

/-- Step 1, `df.drop(columns_to_drop)`: the dropped technical columns are
not part of `Row`, so the row contents are unchanged. -/
def drop_unnecessary (df : Table) : Table := df

/-- Step 2 on one row: `df['dep'] = df['dep'].astype(str).str.zfill(2)`. -/
def normRow (r : Row) : Row := { r with dep := normalize_department r.dep }

/-- Step 2, `df['dep'] = df['dep'].astype(str).str.zfill(2)`. -/
def normalize_dep (df : Table) : Table := df.map normRow

/-- Step 3, filter 1: `df = df[df['an'].notna()]`. -/
def filter_an (df : Table) : Table := df.filter fun r => r.an.isSome

/-- Step 3, filter 2: `df = df[df['grav'].notna()]`. -/
def filter_grav (df : Table) : Table := df.filter fun r => r.grav.isSome

/-- Step 3, filter 3: `df = df[(df['an'] >= 2005) & (df['an'] <= 2023)]`
(a NaN comparison is False). -/
def filter_year_range (df : Table) : Table :=
  df.filter fun r =>
    match r.an with
    | some y => decide (2005 ≤ y) && decide (y ≤ 2023)
    | none => false

/-- Step 3, filter 4: `df = df[df['date'].notna()]`. -/
def filter_date (df : Table) : Table := df.filter fun r => r.date.isSome

/-- Step 3, filter 5:
`df = df[(df['age'].isna()) | ((df['age'] >= 0) & (df['age'] <= 120))]`. -/
def filter_age (df : Table) : Table :=
  df.filter fun r =>
    match r.age with
    | none => true
    | some a => decide (0 ≤ a) && decide (a ≤ 120)

/-- Step 3 in full: the five row filters in source order. -/
def remove_invalid (df : Table) : Table :=
  filter_age (filter_date (filter_year_range (filter_grav (filter_an df))))

/-- Step 5 on one row: the twelve `df['x'] = df['c'].map(X_DICT)` decodings. -/
def decodeRow (r : Row) : Row :=
  { r with
      gravity := mapDict GRAVITY_DICT r.grav
      lighting := mapDict LIGHTING_DICT r.lum
      weather := mapDict WEATHER_DICT r.atm
      agglomeration := mapDict AGGLOMERATION_DICT r.agg
      intersection_type := mapDict INTERSECTION_DICT r.int
      road_category := mapDict ROAD_CATEGORY_DICT r.catr
      surface_condition := mapDict SURFACE_DICT r.surf
      infrastructure := mapDict INFRASTRUCTURE_DICT r.infra
      situation := mapDict SITUATION_DICT r.situ
      gender := mapDict GENDER_DICT r.sexe
      trip_purpose := mapDict TRIP_PURPOSE_DICT r.trajet
      collision_type := mapDict COLLISION_TYPE_DICT r.col }

/-- Step 5: the twelve `df['x'] = df['c'].map(X_DICT)` decodings. -/
def decode_categoricals (df : Table) : Table := df.map decodeRow

/-- `pd.cut(hour, bins=[0,6,12,18,24], include_lowest=True)`: right-closed
intervals, the first one also containing its left endpoint. -/
def time_period_of : Option Nat → Option String
  | none => none
  | some h =>
      if h ≤ 6 then some "Night (0-6h)"
      else if h ≤ 12 then some "Morning (6-12h)"
      else if h ≤ 18 then some "Afternoon (12-18h)"
      else if h ≤ 24 then some "Evening (18-24h)"
      else none

/-- Step 6 on one row: datetime conversions (`year`, `month_num`,
`month_name`, `day_of_week`, `hour`, `time_period`). -/
def convertRow (r : Row) : Row :=
  let parsed := r.date.bind parseDate
  { r with
    year := r.an
    month_num := parsed.map fun p => p.2.1
    month_name := parsed.bind fun p => monthName p.2.1
    day_of_week := parsed.map fun p => dayName p.1 p.2.1 p.2.2
    hour := r.hrmn.bind parseHour
    time_period := time_period_of (r.hrmn.bind parseHour) }

/-- Step 6: datetime conversions. -/
def convert_datetime (df : Table) : Table := df.map convertRow

/-- `pd.cut(age, bins=[0,12,17,25,35,50,65,100])`: right-open on the left,
so age 0 and any age above 100 fall in no bucket (NaN). -/
def age_group_of : Option Int → Option String
  | none => none
  | some a =>
      if a ≤ 0 then none
      else if a ≤ 12 then some "0-12"
      else if a ≤ 17 then some "13-17"
      else if a ≤ 25 then some "18-25"
      else if a ≤ 35 then some "26-35"
      else if a ≤ 50 then some "36-50"
      else if a ≤ 65 then some "51-65"
      else if a ≤ 100 then some "65+"
      else none

def SEASON_MAP : Nat → Option String
  | 12 => some "Winter"
  | 1 => some "Winter"
  | 2 => some "Winter"
  | 3 => some "Spring"
  | 4 => some "Spring"
  | 5 => some "Spring"
  | 6 => some "Summer"
  | 7 => some "Summer"
  | 8 => some "Summer"
  | 9 => some "Autumn"
  | 10 => some "Autumn"
  | 11 => some "Autumn"
  | _ => none

/-- `series.isin(values)` for one cell: False on NaN. -/
def isin {α : Type} [DecidableEq α] (cell : Option α) (values : List α) :
    Bool :=
  match cell with
  | some v => decide (v ∈ values)
  | none => false

/-- Step 7 on one row: calculated features (`age_group`, severity flags,
`dangerous_conditions`, `has_bike_infrastructure`, `is_weekend`,
`season`). `isin`/`==`/`>=` on NaN give False. -/
def calcRow (r : Row) : Row :=
  { r with
    age_group := age_group_of r.age
    is_severe := isin r.grav [2, 3]
    is_fatal := r.grav == some 2
    dangerous_conditions :=
      (match r.lum with | some l => decide (3 ≤ l) | none => false)
      || isin r.atm [2, 3, 4, 5]
      || isin r.surf [2, 3, 5, 7]
    has_bike_infrastructure := isin r.infra [1, 2]
    is_weekend := isin r.day_of_week ["Saturday", "Sunday"]
    season := r.month_num.bind SEASON_MAP }

/-- Step 7: calculated features. -/
def calc_features (df : Table) : Table := df.map calcRow

/-- Step 8 on one row, `df.drop(columns_to_remove_after_decoding)`: the
coded source columns and `an` are removed; modelled by clearing them. -/
def dropRow (r : Row) : Row :=
  { r with
    grav := none, lum := none, atm := none, agg := none, int := none,
    catr := none, surf := none, infra := none, situ := none,
    sexe := none, trajet := none, col := none, an := none }

/-- Step 8, `df.drop(columns_to_remove_after_decoding)`. -/
def drop_coded (df : Table) : Table := df.map dropRow

/-- The per-row part of the pipeline applied after admission. -/
def processRow (r : Row) : Row := dropRow (calcRow (convertRow (decodeRow r)))

/-- `clean_data(df_raw)`: the whole pipeline in source order. -/
def clean_data (df_raw : Table) : Table :=
  drop_coded (calc_features (convert_datetime (decode_categoricals
    (remove_invalid (normalize_dep (drop_unnecessary (copyTable df_raw)))))))

/-! ### Aggregation (`create_aggregated_tables`, prep.py lines 345-385)

`df.groupby(keys).size()` drops every row in which some key is NaN and
returns one (key, count) pair per distinct key combination.  The key of a
row is extracted as an `Option κ` that is `some` exactly when all key
columns are non-null. -/

def keyCounts {κ : Type} [DecidableEq κ] (key : Row → Option κ)
    (df : Table) : List (κ × Nat) :=
  ((df.filterMap key).dedup).map fun k => (k, (df.filterMap key).count k)

/-- Sum of the `count` column of an aggregate table. -/
def sumCounts {κ : Type} (t : List (κ × Nat)) : Nat :=
  (t.map fun p => p.2).sum

/-- `df.groupby(['year', 'gravity']).size()`. -/
def by_year (df : Table) : List ((Int × String) × Nat) :=
  keyCounts (fun r =>
    match r.year, r.gravity with
    | some y, some g => some (y, g)
    | _, _ => none) df

/-- `df.groupby(['lighting', 'gravity']).size()`. -/
def by_lighting (df : Table) : List ((String × String) × Nat) :=
  keyCounts (fun r =>
    match r.lighting, r.gravity with
    | some l, some g => some (l, g)
    | _, _ => none) df

/-- `df.groupby(['infrastructure', 'gravity']).size()`. -/
def by_infrastructure (df : Table) : List ((String × String) × Nat) :=
  keyCounts (fun r =>
    match r.infrastructure, r.gravity with
    | some i, some g => some (i, g)
    | _, _ => none) df

/-- `df.groupby(['hour', 'gravity']).size()`. -/
def by_hour (df : Table) : List ((Nat × String) × Nat) :=
  keyCounts (fun r =>
    match r.hour, r.gravity with
    | some h, some g => some (h, g)
    | _, _ => none) df

/-- `df.groupby(['month_num', 'month_name', 'trip_purpose']).size()`. -/
def by_month_purpose (df : Table) : List ((Nat × String × String) × Nat) :=
  keyCounts (fun r =>
    match r.month_num, r.month_name, r.trip_purpose with
    | some m, some n, some p => some (m, n, p)
    | _, _, _ => none) df

/-- `df.groupby(['age_group', 'gravity']).size()`. -/
def by_age (df : Table) : List ((String × String) × Nat) :=
  keyCounts (fun r =>
    match r.age_group, r.gravity with
    | some a, some g => some (a, g)
    | _, _ => none) df

/-! ### The filter engine (`apply_filters`, app.py lines 182-204) -/

/-- The sidebar selections that `apply_filters` closes over. -/
structure FilterSpec where
  year_lo : Int
  year_hi : Int
  departments : List String
  gravities : List String
  agglomeration_choice : String
  deriving DecidableEq, Repr

/-- `apply_filters(dataframe)`: year range, then department, gravity and
agglomeration, each skipped when the selection contains `'All'` or is
empty (`if 'All' not in selected and len(selected) > 0`). -/
def apply_filters (spec : FilterSpec) (dataframe : Table) : Table :=
  let filtered := dataframe.filter fun r =>
    match r.year with
    | some y => decide (spec.year_lo ≤ y) && decide (y ≤ spec.year_hi)
    | none => false
  let filtered :=
    if ¬ spec.departments.contains "All" ∧ spec.departments.length > 0 then
      filtered.filter fun r => spec.departments.contains r.dep
    else filtered
  let filtered :=
    if ¬ spec.gravities.contains "All" ∧ spec.gravities.length > 0 then
      filtered.filter fun r =>
        match r.gravity with
        | some g => spec.gravities.contains g
        | none => false
    else filtered
  let filtered :=
    if spec.agglomeration_choice ≠ "All" then
      filtered.filter fun r =>
        r.agglomeration == some spec.agglomeration_choice
    else filtered
  filtered

/-! ### Heap model of `clean_data`'s object discipline

To settle whether `clean_data` mutates its argument we execute the same
pipeline over an explicit heap of DataFrame objects.  `df_raw` lives at
address 0; `df = ...` statements allocate a fresh object, while
`df['col'] = ...` statements write in place at the address `df` currently
names.  The step functions above are reused verbatim as the contents
transformers. -/

abbrev Heap := List Table

def readT (h : Heap) (i : Nat) : Table := h.getD i []

def writeT (h : Heap) (i : Nat) (t : Table) : Heap := h.set i t

def allocT (h : Heap) (t : Table) : Heap × Nat := (h ++ [t], h.length)

/-- `clean_data` executed on the heap: returns the final heap and the
address of the returned DataFrame.  The caller's `df_raw` is at address 0. -/
def clean_data_exec (df_raw : Table) : Heap × Nat :=
  let h : Heap := [df_raw]
  let (h, r) := allocT h (copyTable (readT h 0))
  let (h, r) := allocT h (drop_unnecessary (readT h r))
  let h := writeT h r (normalize_dep (readT h r))
  let (h, r) := allocT h (filter_an (readT h r))
  let (h, r) := allocT h (filter_grav (readT h r))
  let (h, r) := allocT h (filter_year_range (readT h r))
  let (h, r) := allocT h (filter_date (readT h r))
  let (h, r) := allocT h (filter_age (readT h r))
  let h := writeT h r (decode_categoricals (readT h r))
  let h := writeT h r (convert_datetime (readT h r))
  let h := writeT h r (calc_features (readT h r))
  let (h, r) := allocT h (drop_coded (readT h r))
  (h, r)

/-! ### The five Validator admission rules, stated individually -/

/-- Rule 1: the `year` field (`an`) is present. -/
def rule_year_present (r : Row) : Bool := r.an.isSome

/-- Rule 2: the severity code (`grav`) is present. -/
def rule_severity_present (r : Row) : Bool := r.grav.isSome

/-- Rule 3: the year lies in the closed range [2005, 2023]. -/
def rule_year_in_range (r : Row) : Bool :=
  match r.an with
  | some y => decide (2005 ≤ y ∧ y ≤ 2023)
  | none => false

/-- Rule 4: the date field is present.  (The source checks only
`df['date'].notna()`; it never requires the date to parse.) -/
def rule_date_present (r : Row) : Bool := r.date.isSome

/-- Rule 5: the age is absent or lies in [0, 120]. -/
def rule_age_valid (r : Row) : Bool :=
  match r.age with
  | none => true
  | some a => decide (0 ≤ a ∧ a ≤ 120)

/-- A row passes the Validator iff it satisfies all five rules. -/
def passes_validator (r : Row) : Bool :=
  rule_year_present r && rule_severity_present r && rule_year_in_range r
    && rule_date_present r && rule_age_valid r

/-! ### Label sets of the decoding tables, and named code sets -/

def gravity_labels : List String :=
  ["Unharmed", "Killed", "Hospitalized", "Minor injury"]

def lighting_labels : List String :=
  ["Daylight", "Twilight or dawn", "Night without street lighting",
   "Night with street lighting off", "Night with street lighting on"]

def weather_labels : List String :=
  ["Normal", "Light rain", "Heavy rain", "Snow - hail", "Fog - smoke",
   "Strong wind - storm", "Dazzling weather", "Overcast", "Other"]

def agglomeration_labels : List String :=
  ["Outside built-up area", "In built-up area"]

def intersection_labels : List String :=
  ["Outside intersection", "X intersection", "T intersection",
   "Y intersection", "Intersection with more than 4 branches", "Roundabout",
   "Square", "Level crossing", "Other intersection"]

def road_category_labels : List String :=
  ["Highway", "National road", "Departmental road", "Municipal road",
   "Off public network", "Parking lot", "Other"]

def surface_labels : List String :=
  ["Normal", "Wet", "Puddles", "Flooded", "Snowy", "Mud", "Icy",
   "Oil - grease", "Other"]

def infrastructure_labels : List String :=
  ["Without infrastructure", "Bike lane (physically separated)",
   "Bike lane (painted)", "Reserved lane", "Other infrastructure"]

def situation_labels : List String :=
  ["Not specified", "None", "On roadway", "On emergency lane", "On shoulder",
   "On sidewalk", "On bike path", "On other special lane", "Other"]

def gender_labels : List String := ["Male", "Female"]

def trip_purpose_labels : List String :=
  ["Not specified", "Home - work", "Home - school", "Shopping",
   "Professional use", "Leisure", "Other"]

def collision_labels : List String :=
  ["Two vehicles - front", "Two vehicles - from rear",
   "Two vehicles - from side", "Three or more vehicles - chain",
   "Three or more vehicles - multiple", "Other collision",
   "Without collision"]

/-- `df['lum'] >= 3`: the lighting codes counted as night. -/
def night_lighting (ol : Option Int) : Bool :=
  match ol with
  | some l => decide (3 ≤ l)
  | none => false

/-- The weather codes the code treats as bad weather:
light rain, heavy rain, snow/hail, fog. -/
def bad_weather_codes : List Int := [2, 3, 4, 5]

/-- The surface codes the code treats as slippery:
wet, puddles, snowy, icy. -/
def slippery_surface_codes : List Int := [2, 3, 5, 7]

/-- A fully-populated raw row that passes every admission rule; concrete
instances below vary single fields of it. -/
def baseRow : Row :=
  { an := some 2020, grav := some 1, lum := some 1, atm := some 1,
    agg := some 2, int := some 1, catr := some 4, surf := some 1,
    infra := some 0, situ := some 1, sexe := some 1, trajet := some 5,
    col := some 7, date := some "2020-06-15", hrmn := some "08:05",
    age := some 30, dep := "75" }

/-- The cleaned record produced from `baseRow`. -/
def cleanedBase : Row := processRow (normRow baseRow)

/-! ### Structural lemmas about the pipeline -/

theorem remove_invalid_eq (df : Table) :
    remove_invalid df = df.filter passes_validator := by
  unfold remove_invalid filter_age filter_date filter_year_range filter_grav
    filter_an
  rw [List.filter_filter, List.filter_filter, List.filter_filter,
    List.filter_filter]
  refine List.filter_congr fun r _ => ?_
  unfold passes_validator rule_year_present rule_severity_present
    rule_year_in_range rule_date_present rule_age_valid
  cases r.an <;> cases r.age <;>
    simp [Bool.decide_and, Bool.and_comm, Bool.and_left_comm, Bool.and_assoc]

theorem passes_validator_normRow (r : Row) :
    passes_validator (normRow r) = passes_validator r := rfl

theorem clean_data_eq (raw : Table) :
    clean_data raw = ((raw.filter passes_validator).map normRow).map
      processRow := by
  unfold clean_data drop_coded calc_features convert_datetime
    decode_categoricals normalize_dep drop_unnecessary copyTable processRow
  rw [remove_invalid_eq, List.filter_map]
  have h1 : (passes_validator ∘ normRow) = passes_validator := by
    funext r; exact passes_validator_normRow r
  rw [h1]
  simp [List.map_map, Function.comp_def]

/-- Membership in the cleaned set: exactly the rows passing the five rules,
each transformed by the per-row pipeline. -/
theorem mem_clean_data {raw : Table} {c : Row} :
    c ∈ clean_data raw ↔
      ∃ r, r ∈ raw ∧ passes_validator r = true
        ∧ c = processRow (normRow r) := by
  rw [clean_data_eq]
  simp only [List.mem_map, List.mem_filter]
  constructor
  · rintro ⟨_, ⟨r, ⟨hr, hp⟩, rfl⟩, rfl⟩
    exact ⟨r, hr, hp, rfl⟩
  · rintro ⟨r, hr, hp, rfl⟩
    exact ⟨normRow r, ⟨r, ⟨hr, hp⟩, rfl⟩, rfl⟩

theorem length_filter_partition {α : Type} (p : α → Bool) (l : List α) :
    (l.filter p).length + (l.filter fun a => !(p a)).length = l.length := by
  induction l with
  | nil => rfl
  | cons a t ih =>
      cases h : p a <;> simp [List.filter_cons, h] <;> omega

/-- The cleaning pipeline neither duplicates nor invents rows: cleaned rows
plus rejected rows account exactly for the raw rows. -/
theorem clean_data_length (raw : Table) :
    (clean_data raw).length
      + (raw.filter fun r => !(passes_validator r)).length
      = raw.length := by
  rw [clean_data_eq]
  simp only [List.length_map]
  exact length_filter_partition passes_validator raw

/-! ### Structural lemmas about aggregation -/

theorem sumCounts_keyCounts {κ : Type} [DecidableEq κ]
    (key : Row → Option κ) (df : Table) :
    sumCounts (keyCounts key df) = (df.filterMap key).length := by
  unfold sumCounts keyCounts
  rw [List.map_map]
  simpa [Function.comp_def] using
    List.sum_map_count_dedup_eq_length (df.filterMap key)

theorem length_filterMap_eq_length_filter {α β : Type} (f : α → Option β)
    (l : List α) :
    (l.filterMap f).length = (l.filter fun a => (f a).isSome).length := by
  induction l with
  | nil => rfl
  | cons a t ih =>
      cases h : f a <;>
        simp [List.filterMap_cons, List.filter_cons, h, ih]

/-! ### Field-tracking lemmas for the per-row pipeline -/

theorem processRow_gravity (r : Row) :
    (processRow r).gravity = mapDict GRAVITY_DICT r.grav := rfl

theorem processRow_lighting (r : Row) :
    (processRow r).lighting = mapDict LIGHTING_DICT r.lum := rfl

theorem processRow_weather (r : Row) :
    (processRow r).weather = mapDict WEATHER_DICT r.atm := rfl

theorem processRow_agglomeration (r : Row) :
    (processRow r).agglomeration = mapDict AGGLOMERATION_DICT r.agg := rfl

theorem processRow_intersection (r : Row) :
    (processRow r).intersection_type = mapDict INTERSECTION_DICT r.int := rfl

theorem processRow_road_category (r : Row) :
    (processRow r).road_category = mapDict ROAD_CATEGORY_DICT r.catr := rfl

theorem processRow_surface (r : Row) :
    (processRow r).surface_condition = mapDict SURFACE_DICT r.surf := rfl

theorem processRow_infrastructure (r : Row) :
    (processRow r).infrastructure = mapDict INFRASTRUCTURE_DICT r.infra := rfl

theorem processRow_situation (r : Row) :
    (processRow r).situation = mapDict SITUATION_DICT r.situ := rfl

theorem processRow_gender (r : Row) :
    (processRow r).gender = mapDict GENDER_DICT r.sexe := rfl

theorem processRow_trip_purpose (r : Row) :
    (processRow r).trip_purpose = mapDict TRIP_PURPOSE_DICT r.trajet := rfl

theorem processRow_collision (r : Row) :
    (processRow r).collision_type = mapDict COLLISION_TYPE_DICT r.col := rfl

theorem processRow_is_fatal (r : Row) :
    (processRow r).is_fatal = (r.grav == some 2) := rfl

theorem processRow_is_severe (r : Row) :
    (processRow r).is_severe = isin r.grav [2, 3] := rfl

theorem processRow_hour (r : Row) :
    (processRow r).hour = r.hrmn.bind parseHour := rfl

theorem processRow_time_period (r : Row) :
    (processRow r).time_period = time_period_of ((processRow r).hour) := rfl

theorem processRow_age (r : Row) : (processRow r).age = r.age := rfl

theorem processRow_age_group (r : Row) :
    (processRow r).age_group = age_group_of r.age := rfl

theorem processRow_dangerous (r : Row) :
    (processRow r).dangerous_conditions
      = (night_lighting r.lum || isin r.atm bad_weather_codes
          || isin r.surf slippery_surface_codes) := rfl

theorem normRow_grav (r : Row) : (normRow r).grav = r.grav := rfl

/-! ### Range of the decoding tables -/

theorem mapDict_range (d : Int → Option String) (labels : List String)
    (h : ∀ c, d c = none ∨ d c ∈ labels.map some) :
    ∀ oc : Option Int, mapDict d oc = none ∨ mapDict d oc ∈ labels.map some := by
  intro oc
  cases oc with
  | none => exact Or.inl rfl
  | some c => exact h c

theorem gravity_dict_range (c : Int) :
    GRAVITY_DICT c = none ∨ GRAVITY_DICT c ∈ gravity_labels.map some := by
  unfold GRAVITY_DICT; split <;> simp [gravity_labels]

theorem lighting_dict_range (c : Int) :
    LIGHTING_DICT c = none ∨ LIGHTING_DICT c ∈ lighting_labels.map some := by
  unfold LIGHTING_DICT; split <;> simp [lighting_labels]

theorem weather_dict_range (c : Int) :
    WEATHER_DICT c = none ∨ WEATHER_DICT c ∈ weather_labels.map some := by
  unfold WEATHER_DICT; split <;> simp [weather_labels]

theorem agglomeration_dict_range (c : Int) :
    AGGLOMERATION_DICT c = none
      ∨ AGGLOMERATION_DICT c ∈ agglomeration_labels.map some := by
  unfold AGGLOMERATION_DICT; split <;> simp [agglomeration_labels]

theorem intersection_dict_range (c : Int) :
    INTERSECTION_DICT c = none
      ∨ INTERSECTION_DICT c ∈ intersection_labels.map some := by
  unfold INTERSECTION_DICT; split <;> simp [intersection_labels]

theorem road_category_dict_range (c : Int) :
    ROAD_CATEGORY_DICT c = none
      ∨ ROAD_CATEGORY_DICT c ∈ road_category_labels.map some := by
  unfold ROAD_CATEGORY_DICT; split <;> simp [road_category_labels]

theorem surface_dict_range (c : Int) :
    SURFACE_DICT c = none ∨ SURFACE_DICT c ∈ surface_labels.map some := by
  unfold SURFACE_DICT; split <;> simp [surface_labels]

theorem infrastructure_dict_range (c : Int) :
    INFRASTRUCTURE_DICT c = none
      ∨ INFRASTRUCTURE_DICT c ∈ infrastructure_labels.map some := by
  unfold INFRASTRUCTURE_DICT; split <;> simp [infrastructure_labels]

theorem situation_dict_range (c : Int) :
    SITUATION_DICT c = none ∨ SITUATION_DICT c ∈ situation_labels.map some := by
  unfold SITUATION_DICT; split <;> simp [situation_labels]

theorem gender_dict_range (c : Int) :
    GENDER_DICT c = none ∨ GENDER_DICT c ∈ gender_labels.map some := by
  unfold GENDER_DICT; split <;> simp [gender_labels]

theorem trip_purpose_dict_range (c : Int) :
    TRIP_PURPOSE_DICT c = none
      ∨ TRIP_PURPOSE_DICT c ∈ trip_purpose_labels.map some := by
  unfold TRIP_PURPOSE_DICT; split <;> simp [trip_purpose_labels]

theorem collision_dict_range (c : Int) :
    COLLISION_TYPE_DICT c = none
      ∨ COLLISION_TYPE_DICT c ∈ collision_labels.map some := by
  unfold COLLISION_TYPE_DICT; split <;> simp [collision_labels]

/-! ### Small facts about time parsing and zfill -/

theorem parseHour_le_23 {s : String} {h : Nat} (hp : parseHour s = some h) :
    h ≤ 23 := by
  unfold parseHour at hp
  split at hp
  · split at hp
    · cases hp
      omega
    · exact absurd hp (by simp)
  · exact absurd hp (by simp)

theorem zfillChars_length (w : Nat) (cs : List Char) :
    (zfillChars w cs).length = max w cs.length := by
  unfold zfillChars
  split
  · omega
  · split
    · split
      · simp only [List.length_cons, List.length_append,
          List.length_replicate]
        omega
      · simp only [List.length_append, List.length_replicate]
        omega
    · simp only [List.length_replicate]
      omega

theorem zfillChars_of_le {w : Nat} {cs : List Char} (h : w ≤ cs.length) :
    zfillChars w cs = cs := by
  unfold zfillChars
  rw [if_pos h]

theorem zfillChars_idem (w : Nat) (cs : List Char) :
    zfillChars w (zfillChars w cs) = zfillChars w cs := by
  apply zfillChars_of_le
  rw [zfillChars_length]
  omega

theorem keyCounts_sum_filter {κ : Type} [DecidableEq κ]
    (key : Row → Option κ) (p : Row → Bool) (df : Table)
    (hkey : ∀ r, (key r).isSome = p r) :
    sumCounts (keyCounts key df) = (df.filter p).length := by
  rw [sumCounts_keyCounts, length_filterMap_eq_length_filter]
  congr 1
  exact List.filter_congr fun r _ => hkey r

/-! ## The claims -/

/-- C1 (amended): a row appears in the cleaned set iff it passes the five
admission rules of the source — year present, severity code present, year
in [2005, 2023], date field **present** (the code never checks that it
parses), age absent or in [0, 120] — and the number of cleaned rows plus
the number of rejected rows equals the number of raw rows. -/
theorem validator_admission_characterization (raw : Table) :
    (∀ c, c ∈ clean_data raw ↔
      ∃ r, r ∈ raw
        ∧ (rule_year_present r && rule_severity_present r
            && rule_year_in_range r && rule_date_present r
            && rule_age_valid r) = true
        ∧ c = processRow (normRow r))
    ∧ (clean_data raw).length
        + (raw.filter fun r =>
            !(rule_year_present r && rule_severity_present r
              && rule_year_in_range r && rule_date_present r
              && rule_age_valid r)).length
        = raw.length :=
  ⟨fun _ => mem_clean_data, clean_data_length raw⟩

/-- C1 counterexample: a row whose date field is present but does not parse
as a calendar date passes all the source's checks and lands in the cleaned
set (with a null `month_num`), so "date parses to a valid calendar date" is
not one of the admission rules. -/
theorem unparseable_date_admitted :
    (clean_data [{ baseRow with date := some "banana" }]).length = 1
    ∧ parseDate "banana" = none
    ∧ ((clean_data [{ baseRow with date := some "banana" }]).map
        fun c => c.month_num) = [none] := by
  decide

/-- C2 (amended): every decoded categorical field of a cleaned record is
either a label of its decoding table or null (NaN) — never the raw numeric
code; a code with no table entry decodes to null, not to an
"Unspecified"/"Other" sentinel. -/
theorem decoded_fields_in_label_range (raw : Table) (c : Row)
    (hc : c ∈ clean_data raw) :
    (c.gravity = none ∨ c.gravity ∈ gravity_labels.map some)
    ∧ (c.lighting = none ∨ c.lighting ∈ lighting_labels.map some)
    ∧ (c.weather = none ∨ c.weather ∈ weather_labels.map some)
    ∧ (c.agglomeration = none
        ∨ c.agglomeration ∈ agglomeration_labels.map some)
    ∧ (c.intersection_type = none
        ∨ c.intersection_type ∈ intersection_labels.map some)
    ∧ (c.road_category = none
        ∨ c.road_category ∈ road_category_labels.map some)
    ∧ (c.surface_condition = none
        ∨ c.surface_condition ∈ surface_labels.map some)
    ∧ (c.infrastructure = none
        ∨ c.infrastructure ∈ infrastructure_labels.map some)
    ∧ (c.situation = none ∨ c.situation ∈ situation_labels.map some)
    ∧ (c.gender = none ∨ c.gender ∈ gender_labels.map some)
    ∧ (c.trip_purpose = none ∨ c.trip_purpose ∈ trip_purpose_labels.map some)
    ∧ (c.collision_type = none
        ∨ c.collision_type ∈ collision_labels.map some) := by
  obtain ⟨r, -, -, rfl⟩ := mem_clean_data.mp hc
  exact ⟨mapDict_range _ _ gravity_dict_range _,
    mapDict_range _ _ lighting_dict_range _,
    mapDict_range _ _ weather_dict_range _,
    mapDict_range _ _ agglomeration_dict_range _,
    mapDict_range _ _ intersection_dict_range _,
    mapDict_range _ _ road_category_dict_range _,
    mapDict_range _ _ surface_dict_range _,
    mapDict_range _ _ infrastructure_dict_range _,
    mapDict_range _ _ situation_dict_range _,
    mapDict_range _ _ gender_dict_range _,
    mapDict_range _ _ trip_purpose_dict_range _,
    mapDict_range _ _ collision_dict_range _⟩

theorem decoded_fields_in_label_range_witness :
    (cleanedBase.gravity = none
        ∨ cleanedBase.gravity ∈ gravity_labels.map some)
    ∧ (cleanedBase.lighting = none
        ∨ cleanedBase.lighting ∈ lighting_labels.map some)
    ∧ (cleanedBase.weather = none
        ∨ cleanedBase.weather ∈ weather_labels.map some)
    ∧ (cleanedBase.agglomeration = none
        ∨ cleanedBase.agglomeration ∈ agglomeration_labels.map some)
    ∧ (cleanedBase.intersection_type = none
        ∨ cleanedBase.intersection_type ∈ intersection_labels.map some)
    ∧ (cleanedBase.road_category = none
        ∨ cleanedBase.road_category ∈ road_category_labels.map some)
    ∧ (cleanedBase.surface_condition = none
        ∨ cleanedBase.surface_condition ∈ surface_labels.map some)
    ∧ (cleanedBase.infrastructure = none
        ∨ cleanedBase.infrastructure ∈ infrastructure_labels.map some)
    ∧ (cleanedBase.situation = none
        ∨ cleanedBase.situation ∈ situation_labels.map some)
    ∧ (cleanedBase.gender = none
        ∨ cleanedBase.gender ∈ gender_labels.map some)
    ∧ (cleanedBase.trip_purpose = none
        ∨ cleanedBase.trip_purpose ∈ trip_purpose_labels.map some)
    ∧ (cleanedBase.collision_type = none
        ∨ cleanedBase.collision_type ∈ collision_labels.map some) :=
  decoded_fields_in_label_range [baseRow] cleanedBase (by decide)

/-- C2 counterexample: weather code -1 has no entry in `WEATHER_DICT`, and
the cleaned record's `weather` is null — not an "Unspecified"/"Other"
label. -/
theorem decode_miss_yields_null :
    WEATHER_DICT (-1) = none
    ∧ ((clean_data [{ baseRow with atm := some (-1) }]).map
        fun c => c.weather) = [none] := by
  decide

/-- C3 (amended): an explicitly empty department selection disables the
department predicate — `apply_filters` behaves exactly as if "All" were
selected, rather than returning zero records. -/
theorem empty_departments_acts_as_all (spec : FilterSpec) (df : Table)
    (h : spec.departments = []) :
    apply_filters spec df
      = apply_filters { spec with departments := ["All"] } df := by
  unfold apply_filters
  rw [h]
  simp

theorem empty_departments_acts_as_all_witness :
    apply_filters ⟨2005, 2023, [], ["All"], "All"⟩ (clean_data [baseRow])
      = apply_filters ⟨2005, 2023, ["All"], ["All"], "All"⟩
          (clean_data [baseRow]) :=
  empty_departments_acts_as_all _ _ rfl

/-- C3 counterexample: with departments explicitly selected as the empty
list, the filtered set still contains the whole one-record cleaned set,
not zero records. -/
theorem empty_departments_returns_all :
    (apply_filters ⟨2005, 2023, [], ["All"], "All"⟩
        (clean_data [baseRow])).length = 1
    ∧ (clean_data [baseRow]).length = 1 := by
  decide

/-- C4 (amended): for each of the six aggregate tables, the sum of the
`count` column equals the number of cleaned records whose grouping keys
are all non-null — `groupby` silently drops records with a null key, so
the sum can fall short of the total record count. -/
theorem aggregate_sums_count_nonnull_keys (df : Table) :
    sumCounts (by_year df)
        = (df.filter fun r => r.year.isSome && r.gravity.isSome).length
    ∧ sumCounts (by_lighting df)
        = (df.filter fun r => r.lighting.isSome && r.gravity.isSome).length
    ∧ sumCounts (by_infrastructure df)
        = (df.filter fun r =>
            r.infrastructure.isSome && r.gravity.isSome).length
    ∧ sumCounts (by_hour df)
        = (df.filter fun r => r.hour.isSome && r.gravity.isSome).length
    ∧ sumCounts (by_month_purpose df)
        = (df.filter fun r =>
            r.month_num.isSome && r.month_name.isSome
              && r.trip_purpose.isSome).length
    ∧ sumCounts (by_age df)
        = (df.filter fun r =>
            r.age_group.isSome && r.gravity.isSome).length := by
  refine ⟨?_, ?_, ?_, ?_, ?_, ?_⟩
  · exact keyCounts_sum_filter _ _ df fun r => by
      cases hy : r.year <;> cases hg : r.gravity <;> rfl
  · exact keyCounts_sum_filter _ _ df fun r => by
      cases hy : r.lighting <;> cases hg : r.gravity <;> rfl
  · exact keyCounts_sum_filter _ _ df fun r => by
      cases hy : r.infrastructure <;> cases hg : r.gravity <;> rfl
  · exact keyCounts_sum_filter _ _ df fun r => by
      cases hy : r.hour <;> cases hg : r.gravity <;> rfl
  · exact keyCounts_sum_filter _ _ df fun r => by
      cases hy : r.month_num <;> cases hn : r.month_name <;>
        cases ht : r.trip_purpose <;> rfl
  · exact keyCounts_sum_filter _ _ df fun r => by
      cases hy : r.age_group <;> cases hg : r.gravity <;> rfl

/-- C4 counterexample: a cleaned record with a null `age` (hence null
`age_group`) is dropped by `groupby`, so the age-group table's counts sum
to 0 while the cleaned set has 1 record. -/
theorem aggregate_sum_undercounts :
    (clean_data [{ baseRow with age := none }]).length = 1
    ∧ sumCounts (by_age (clean_data [{ baseRow with age := none }])) = 0 := by
  decide

/-- C5 (amended): `dangerous_conditions` is true exactly when the lighting
code indicates night (`lum >= 3`), or the weather code is in {light rain,
heavy rain, snow/hail, fog} (codes 2-5 — strong wind/storm and dazzling
are NOT included), or the surface code is in {wet, puddles, snowy, icy}
(codes 2, 3, 5, 7 — mud and oil/grease are NOT included). -/
theorem dangerous_conditions_characterization (raw : Table) (c : Row)
    (hc : c ∈ clean_data raw) :
    ∃ r, r ∈ raw ∧ c.dangerous_conditions
      = (night_lighting r.lum || isin r.atm bad_weather_codes
          || isin r.surf slippery_surface_codes) := by
  obtain ⟨r, hr, -, rfl⟩ := mem_clean_data.mp hc
  exact ⟨r, hr, rfl⟩

theorem dangerous_conditions_characterization_witness :
    ∃ r, r ∈ [baseRow] ∧ cleanedBase.dangerous_conditions
      = (night_lighting r.lum || isin r.atm bad_weather_codes
          || isin r.surf slippery_surface_codes) :=
  dangerous_conditions_characterization [baseRow] cleanedBase (by decide)

/-- C5 counterexample: weather code 6 is "Strong wind - storm", which the
claim's bad-weather set contains, yet the cleaned record's
`dangerous_conditions` is false (the code only checks `atm.isin([2,3,4,5])`). -/
theorem strong_wind_not_dangerous :
    WEATHER_DICT 6 = some "Strong wind - storm"
    ∧ ((clean_data [{ baseRow with atm := some 6 }]).map
        fun c => c.dangerous_conditions) = [false] := by
  decide

/-- C6 (amended): `time_period` buckets are right-closed: hours in [0, 6]
map to Night, (6, 12] to Morning, (12, 18] to Afternoon and (18, 23] to
Evening — a boundary hour belongs to the bucket that *ends* at it, not the
one that starts at it. -/
theorem time_period_buckets (raw : Table) (c : Row) (h : Nat)
    (hc : c ∈ clean_data raw) (hh : c.hour = some h) :
    (h ≤ 6 ∧ c.time_period = some "Night (0-6h)")
    ∨ (6 < h ∧ h ≤ 12 ∧ c.time_period = some "Morning (6-12h)")
    ∨ (12 < h ∧ h ≤ 18 ∧ c.time_period = some "Afternoon (12-18h)")
    ∨ (18 < h ∧ h ≤ 23 ∧ c.time_period = some "Evening (18-24h)") := by
  obtain ⟨r, -, -, rfl⟩ := mem_clean_data.mp hc
  have htp : (processRow (normRow r)).time_period = time_period_of (some h) := by
    rw [processRow_time_period, hh]
  have hle : h ≤ 23 := by
    have hh' := hh
    rw [processRow_hour] at hh'
    cases hs : (normRow r).hrmn with
    | none => rw [hs] at hh'; cases hh'
    | some s => rw [hs] at hh'; exact parseHour_le_23 hh'
  by_cases h6 : h ≤ 6
  · exact Or.inl ⟨h6, htp.trans (by simp [time_period_of, h6])⟩
  by_cases h12 : h ≤ 12
  · exact Or.inr (Or.inl ⟨by omega, h12,
      htp.trans (by simp [time_period_of, h6, h12])⟩)
  by_cases h18 : h ≤ 18
  · exact Or.inr (Or.inr (Or.inl ⟨by omega, h18,
      htp.trans (by simp [time_period_of, h6, h12, h18])⟩))
  · have h24 : h ≤ 24 := by omega
    exact Or.inr (Or.inr (Or.inr ⟨by omega, hle,
      htp.trans (by simp [time_period_of, h6, h12, h18, h24])⟩))

theorem time_period_buckets_witness :
    (8 ≤ 6 ∧ cleanedBase.time_period = some "Night (0-6h)")
    ∨ (6 < 8 ∧ 8 ≤ 12 ∧ cleanedBase.time_period = some "Morning (6-12h)")
    ∨ (12 < 8 ∧ 8 ≤ 18 ∧ cleanedBase.time_period = some "Afternoon (12-18h)")
    ∨ (18 < 8 ∧ 8 ≤ 23 ∧ cleanedBase.time_period = some "Evening (18-24h)") :=
  time_period_buckets [baseRow] cleanedBase 8 (by decide) (by decide)

/-- C6 counterexample: hour 6 lands in "Night (0-6h)", not in the Morning
bucket that the claim's half-open intervals would assign. -/
theorem hour_six_is_night :
    ((clean_data [{ baseRow with hrmn := some "06:30" }]).map
      fun c => (c.hour, c.time_period))
      = [(some 6, some "Night (0-6h)")] := by
  decide

/-- C7 (amended): `age_group` uses right-closed buckets (0,12], (12,17],
(17,25], (25,35], (35,50], (50,65], (65,100]: an admitted age in [1, 100]
receives exactly one bucket, but age 0 and ages in (100, 120] — admitted
by the validator — receive no bucket (null `age_group`). -/
theorem age_group_buckets (raw : Table) (c : Row) (a : Int)
    (hc : c ∈ clean_data raw) (ha : c.age = some a) :
    (a ≤ 0 ∧ c.age_group = none)
    ∨ (0 < a ∧ a ≤ 12 ∧ c.age_group = some "0-12")
    ∨ (12 < a ∧ a ≤ 17 ∧ c.age_group = some "13-17")
    ∨ (17 < a ∧ a ≤ 25 ∧ c.age_group = some "18-25")
    ∨ (25 < a ∧ a ≤ 35 ∧ c.age_group = some "26-35")
    ∨ (35 < a ∧ a ≤ 50 ∧ c.age_group = some "36-50")
    ∨ (50 < a ∧ a ≤ 65 ∧ c.age_group = some "51-65")
    ∨ (65 < a ∧ a ≤ 100 ∧ c.age_group = some "65+")
    ∨ (100 < a ∧ c.age_group = none) := by
  obtain ⟨r, -, -, rfl⟩ := mem_clean_data.mp hc
  rw [processRow_age] at ha
  have hag : (processRow (normRow r)).age_group = age_group_of (some a) := by
    rw [processRow_age_group, ha]
  simp only [age_group_of] at hag
  split_ifs at hag with h1 h2 h3 h4 h5 h6 h7 h8
  · exact Or.inl ⟨h1, hag⟩
  · exact Or.inr (Or.inl ⟨by omega, h2, hag⟩)
  · exact Or.inr (Or.inr (Or.inl ⟨by omega, h3, hag⟩))
  · exact Or.inr (Or.inr (Or.inr (Or.inl ⟨by omega, h4, hag⟩)))
  · exact Or.inr (Or.inr (Or.inr (Or.inr (Or.inl ⟨by omega, h5, hag⟩))))
  · exact Or.inr (Or.inr (Or.inr (Or.inr (Or.inr
      (Or.inl ⟨by omega, h6, hag⟩)))))
  · exact Or.inr (Or.inr (Or.inr (Or.inr (Or.inr (Or.inr
      (Or.inl ⟨by omega, h7, hag⟩))))))
  · exact Or.inr (Or.inr (Or.inr (Or.inr (Or.inr (Or.inr (Or.inr
      (Or.inl ⟨by omega, h8, hag⟩)))))))
  · exact Or.inr (Or.inr (Or.inr (Or.inr (Or.inr (Or.inr (Or.inr
      (Or.inr ⟨by omega, hag⟩)))))))

theorem age_group_buckets_witness :
    ((30 : Int) ≤ 0 ∧ cleanedBase.age_group = none)
    ∨ (0 < (30 : Int) ∧ (30 : Int) ≤ 12
        ∧ cleanedBase.age_group = some "0-12")
    ∨ (12 < (30 : Int) ∧ (30 : Int) ≤ 17
        ∧ cleanedBase.age_group = some "13-17")
    ∨ (17 < (30 : Int) ∧ (30 : Int) ≤ 25
        ∧ cleanedBase.age_group = some "18-25")
    ∨ (25 < (30 : Int) ∧ (30 : Int) ≤ 35
        ∧ cleanedBase.age_group = some "26-35")
    ∨ (35 < (30 : Int) ∧ (30 : Int) ≤ 50
        ∧ cleanedBase.age_group = some "36-50")
    ∨ (50 < (30 : Int) ∧ (30 : Int) ≤ 65
        ∧ cleanedBase.age_group = some "51-65")
    ∨ (65 < (30 : Int) ∧ (30 : Int) ≤ 100
        ∧ cleanedBase.age_group = some "65+")
    ∨ (100 < (30 : Int) ∧ cleanedBase.age_group = none) :=
  age_group_buckets [baseRow] cleanedBase 30 (by decide) (by decide)

/-- C7 counterexample: age 0 is admitted (it lies in [0, 120]) but receives
no age bucket — `pd.cut` with bins starting at 0 and no `include_lowest`
excludes 0 — contradicting the claim that age 0 lands in "0-12". -/
theorem age_zero_has_no_bucket :
    ((clean_data [{ baseRow with age := some 0 }]).map
      fun c => (c.age, c.age_group)) = [(some 0, none)] := by
  decide

/-- C8: for every cleaned record, `is_fatal` implies `is_severe`
(`is_fatal` holds exactly on severity code 2 = Killed, `is_severe` on
codes 2 and 3 = Killed or Hospitalized). -/
theorem fatal_implies_severe (raw : Table) (c : Row)
    (hc : c ∈ clean_data raw) (hf : c.is_fatal = true) :
    c.is_severe = true := by
  obtain ⟨r, -, -, rfl⟩ := mem_clean_data.mp hc
  rw [processRow_is_fatal] at hf
  rw [processRow_is_severe]
  have h2 : (normRow r).grav = some 2 := by simpa using hf
  rw [h2]
  decide

theorem fatal_implies_severe_witness :
    (processRow (normRow { baseRow with grav := some 2 })).is_severe
      = true :=
  fatal_implies_severe [{ baseRow with grav := some 2 }]
    (processRow (normRow { baseRow with grav := some 2 }))
    (by decide) (by decide)

/-- C9: department normalization is idempotent, and "7" normalizes to
"07", "75" to "75", "2A" to "2A". -/
theorem normalize_department_idempotent :
    (∀ s : String,
      normalize_department (normalize_department s) = normalize_department s)
    ∧ normalize_department "7" = "07"
    ∧ normalize_department "75" = "75"
    ∧ normalize_department "2A" = "2A" :=
  ⟨fun s => congrArg String.mk (zfillChars_idem 2 s.data),
    by decide, by decide, by decide⟩

/-- C10: `clean_data` works on a copy: executing the pipeline over an
explicit heap of DataFrame objects, the caller's raw table (address 0) is
unchanged at the end, and the object returned holds exactly
`clean_data df_raw`. -/
theorem clean_data_preserves_input (df_raw : Table) :
    readT (clean_data_exec df_raw).1 0 = df_raw
    ∧ readT (clean_data_exec df_raw).1 (clean_data_exec df_raw).2
        = clean_data df_raw :=
  ⟨rfl, rfl⟩

end Cyclo
